import Mathlib

/-!
Verification development for the TheCollector repository (src/bot.py and
src/bot_telethon.py): a chat bot that accepts a video URL with optional
start/end times, invokes the external yt-dlp tool, relays progress, and
delivers the resulting file subject to a 49 MB ceiling.

Every definition below is a shallow embedding of a concrete region of the
Python source; the source file and line range are named in each doc comment.
-/

namespace TheCollector

/-- Configuration constant `MAX_FILE_SIZE_MB = 49` (src/bot.py line 30). -/
def MAX_FILE_SIZE_MB : Nat := 49

/-- The delivery ceiling in bytes, `MAX_FILE_SIZE_MB * 1024 * 1024`
(src/bot.py line 301). -/
def sizeLimitBytes : Nat := MAX_FILE_SIZE_MB * 1024 * 1024

/-- Configuration constant `DOWNLOAD_PATH` (src/bot.py line 29,
src/bot_telethon.py line 41). -/
def DOWNLOAD_PATH : String := "video_downloads/"

/-- Configuration constant (src/bot.py line 34). -/
def YOUTUBE_COOKIES_FILE : String := "cookies/youtube.txt"

/-- Configuration constant (src/bot.py line 35). -/
def INSTAGRAM_COOKIES_FILE : String := "cookies/instagram.txt"

/-- Python truthiness of an optional string: `None` and `""` are falsy.
Used to embed conditions such as `if start_time_str and end_time_str`. -/
def pyTruthy : Option String → Bool
  | none => false
  | some s => !(s == "")

/-- Embedding of Python `text.isdigit()` for the character model used here
(decimal digits `0`-`9`): non-empty and every character a decimal digit. -/
def pyIsDigit (s : String) : Bool :=
  !s.data.isEmpty && s.data.all Char.isDigit

/-- `is_time_like` (src/bot.py lines 54-58, src/bot_telethon.py lines 73-76):
`if not text: return False; return ':' in text or text.isdigit()`. -/
def is_time_like (text : String) : Bool :=
  if text == "" then false
  else text.data.contains ':' || pyIsDigit text

/-- Substring search on character lists, embedding Python's `needle in hay`. -/
def listContainsSub (needle : List Char) : List Char → Bool
  | [] => needle.isEmpty
  | c :: t => needle.isPrefixOf (c :: t) || listContainsSub needle t

/-- Python `needle in hay` on strings (used by the error categorisation of
src/bot.py lines 230-234). -/
def containsSubstr (hay needle : String) : Bool :=
  listContainsSub needle.data hay.data

/-- URL validity check `url.startswith(('http://', 'https://'))`
(src/bot.py line 116, src/bot_telethon.py line 145). -/
def isValidUrl (url : String) : Bool :=
  ("http://".data).isPrefixOf url.data || ("https://".data).isPrefixOf url.data

/-- Warning reply for an implausible start token
(src/bot.py line 285, src/bot_telethon.py line 342 differs only in the tail
wording; the bot.py text is used). -/
def warnStart (tok : String) : String :=
  "⚠️ '" ++ tok ++ "' doesn't look like a valid start time (e.g., MM:SS). Downloading full video or stopping."

/-- Warning reply for an implausible end token (src/bot.py line 293). -/
def warnEnd (tok startTok : String) : String :=
  "⚠️ '" ++ tok ++ "' doesn't look like a valid end time. Will download from " ++ startTok ++ " to end if applicable."

/-- Result of parsing the optional time arguments of `/download`. -/
structure ParseResult where
  start_time_str : Option String
  end_time_str : Option String
  warnings : List String
  deriving DecidableEq

/-- Embedding of the time-argument parsing of `download_command_handler`
(src/bot.py lines 276-293) and `download_command_tele_handler`
(src/bot_telethon.py lines 334-352): the second token becomes `start` only
when `is_time_like` holds, else a warning; the third token is considered only
when `len(args) >= 3 and start_time_str`, and becomes `end` only when
`is_time_like` holds, else a warning. -/
def parse_time_args (args : List String) : ParseResult :=
  let step1 : Option String × List String :=
    match args.get? 1 with
    | none => (none, [])
    | some potential =>
      if is_time_like potential then (some potential, [])
      else (none, [warnStart potential])
  let start_time_str := step1.1
  let step2 : Option String × List String :=
    match args.get? 2 with
    | none => (none, [])
    | some potential =>
      if pyTruthy start_time_str then
        if is_time_like potential then (some potential, [])
        else (none, [warnEnd potential (start_time_str.getD "")])
      else (none, [])
  { start_time_str := start_time_str
    end_time_str := step2.1
    warnings := step1.2 ++ step2.2 }

/-- The job-scoped entries of the per-chat data store: in src/bot.py these are
the keys `download_filename_{chat_id}`, `download_error_{chat_id}` and
`last_progress_msg_{chat_id}` of `context.chat_data`; in src/bot_telethon.py
the keys `download_filename`, `download_error` and `last_progress_msg` of
`chat_data_store[chat_id]`. An absent key is `none` / `false`. -/
structure ChatStore where
  downloadFilename : Option String
  downloadError : Bool
  lastProgressMsg : Option String
  deriving DecidableEq

/-- The store with none of the job-scoped keys present. -/
def emptyStore : ChatStore := ⟨none, false, none⟩

/-- A yt-dlp progress event as consumed by the hooks: the `status` field of
the dict `d` together with the fields each branch reads. -/
inductive ProgressEvent where
  | downloading (percent totalBytes speed eta : String)
  | finished (filename : Option String)
  | error
  deriving DecidableEq

/-- Removes every occurrence of the ANSI code `\x1b[0;94m`, embedding
`percent_str.replace('\x1b[0;94m', '')` (src/bot.py line 373,
src/bot_telethon.py line 113). -/
def stripAnsiColor : List Char → List Char
  | '\x1b' :: '[' :: '0' :: ';' :: '9' :: '4' :: 'm' :: rest => stripAnsiColor rest
  | c :: rest => c :: stripAnsiColor rest
  | [] => []

/-- Removes every occurrence of the ANSI code `\x1b[0m`, embedding
`.replace('\x1b[0m', '')` (src/bot.py line 373, src/bot_telethon.py
line 113). -/
def stripAnsiReset : List Char → List Char
  | '\x1b' :: '[' :: '0' :: 'm' :: rest => stripAnsiReset rest
  | c :: rest => c :: stripAnsiReset rest
  | [] => []

/-- The two sequential `.replace` calls on the percent string. -/
def stripAnsi (s : String) : String :=
  ⟨stripAnsiReset (stripAnsiColor s.data)⟩

/-- The fixed-template progress text
`f"Downloading...\nProgress: {percent_str}\nSize: {total_bytes_str}\nSpeed: {speed_str}\nETA: {eta_str}"`
(src/bot.py line 384, src/bot_telethon.py line 117), with the ANSI strip
applied to the percent string. -/
def formatProgress (percent totalBytes speed eta : String) : String :=
  "Downloading...\nProgress: " ++ stripAnsi percent ++ "\nSize: " ++ totalBytes
    ++ "\nSpeed: " ++ speed ++ "\nETA: " ++ eta

/-- Embedding of `download_progress_hook` (src/bot.py lines 366-431; the
telethon `_download_progress_hook_sync`, src/bot_telethon.py lines 90-136, has
the same store transitions). Returns the updated store and the text of the
chat edit issued for this event, if any. On `downloading` the formatted text
is compared with the last recorded text (absent key defaulting to `""`) and
the edit is suppressed when equal; on `finished` the reported filename is
recorded and the dedup state cleared; on `error` the error flag is set. -/
def download_progress_hook (e : ProgressEvent) (store : ChatStore) :
    ChatStore × Option String :=
  match e with
  | .downloading percent totalBytes speed eta =>
    let msg := formatProgress percent totalBytes speed eta
    let last := store.lastProgressMsg.getD ""
    if last != msg then
      ({ store with lastProgressMsg := some msg }, some msg)
    else (store, none)
  | .finished filename =>
    let store1 :=
      match filename with
      | some f => { store with downloadFilename := some f }
      | none => store
    ({ store1 with lastProgressMsg := none },
      some "✅ Download finished by yt-dlp. Preparing to send...")
  | .error =>
    ({ store with downloadError := true },
      some "❌ yt-dlp encountered an error during download.")

/-- Runs the hook over a sequence of progress events, collecting the chat
edits issued. -/
def relay_run (store : ChatStore) : List ProgressEvent → ChatStore × List String
  | [] => (store, [])
  | e :: rest =>
    let step := download_progress_hook e store
    let cont := relay_run step.1 rest
    (cont.1, step.2.toList ++ cont.2)

/-- Decidable form of "this event is a `downloading` event whose formatted
text is `t`". -/
def isDownloadingWithText (t : String) : ProgressEvent → Bool
  | .downloading percent totalBytes speed eta =>
    formatProgress percent totalBytes speed eta == t
  | _ => false

/-- All ways the optional leading group `(p1|p2|...)?` of a backtracking
regex match can consume the input `s`: either nothing, or one alternative
that is a literal prefix of `s`. -/
def stripPrefixOptChoices (choices : List (List Char)) (s : List Char) :
    List (List Char) :=
  s :: choices.filterMap fun p =>
    if p.isPrefixOf s then some (s.drop p.length) else none

/-- The regex group `(https?://)?` shared by both URL patterns. -/
def schemeStripped (s : List Char) : List (List Char) :=
  stripPrefixOptChoices ["http://".data, "https://".data] s

/-- The regex group `(www\.)?` shared by both URL patterns. -/
def wwwStripped (s : List Char) : List (List Char) :=
  stripPrefixOptChoices ["www.".data] s

/-- The regex tail `([^/?#&]+)`: at least one character outside `/?#&`. -/
def instaSlug : List Char → Bool
  | [] => false
  | c :: _ => !(['/', '?', '#', '&'].contains c)

/-- The literal-host part `instagram\.com/(p|reel|tv)/([^/?#&]+)` of the
Instagram pattern, applied after the optional groups. -/
def instaTail (s : List Char) : Bool :=
  ("instagram.com/".data).isPrefixOf s &&
    (["p/".data, "reel/".data, "tv/".data].any fun pre =>
      pre.isPrefixOf (s.drop ("instagram.com/".data).length) &&
        instaSlug ((s.drop ("instagram.com/".data).length).drop pre.length))

/-- `is_instagram_url` (src/bot.py lines 68-71, src/bot_telethon.py lines
85-87): `re.match` of `(https?://)?(www\.)?instagram\.com/(p|reel|tv)/([^/?#&]+)`,
a prefix match with backtracking over the optional groups. -/
def is_instagram_url (url : String) : Bool :=
  (schemeStripped url.data).any fun s1 => (wwwStripped s1).any instaTail

/-- The regex tail `([^&=%\?]{11})`: eleven characters outside `&=%?`
(`re.match` is a prefix match, so further characters may follow). -/
def ytId (s : List Char) : Bool :=
  decide (11 ≤ s.length) && (s.take 11).all fun c => !(['&', '=', '%', '?'].contains c)

/-- The alternative `.+\?v=` followed by the eleven-character id: one or more
non-newline characters, then the literal `?v=`, then the id. -/
def ytDotPlus : List Char → Bool
  | [] => false
  | c :: rest =>
    c != '\n' &&
      ((("?v=".data).isPrefixOf rest && ytId (rest.drop 3)) || ytDotPlus rest)

/-- `(watch\?v=|embed/|v/|.+\?v=)?([^&=%\?]{11})` after the host part. -/
def ytAfterHost (s : List Char) : Bool :=
  ytId s
    || (["watch?v=".data, "embed/".data, "v/".data].any fun pre =>
        pre.isPrefixOf s && ytId (s.drop pre.length))
    || ytDotPlus s

/-- `(youtube|youtu|youtube-nocookie)\.(com|be)/` followed by the tail. -/
def ytHostAndTail (s : List Char) : Bool :=
  ["youtube".data, "youtu".data, "youtube-nocookie".data].any fun h =>
    h.isPrefixOf s &&
      ([".com/".data, ".be/".data].any fun d =>
        d.isPrefixOf (s.drop h.length) && ytAfterHost ((s.drop h.length).drop d.length))

/-- `is_youtube_url` (src/bot.py lines 60-66, src/bot_telethon.py lines
78-83): `re.match` of
`(https?://)?(www\.)?(youtube|youtu|youtube-nocookie)\.(com|be)/(watch\?v=|embed/|v/|.+\?v=)?([^&=%\?]{11})`. -/
def is_youtube_url (url : String) : Bool :=
  (schemeStripped url.data).any fun s1 => (wwwStripped s1).any ytHostAndTail

/-- The six concrete prefixes the optional groups `(https?://)?(www\.)?`
can consume. -/
def optionalPrefixes : List (List Char) :=
  [[], "http://".data, "https://".data, "www.".data,
    "http://www.".data, "https://www.".data]

/-- Categorized message for errors containing `Unsupported URL`
(src/bot.py line 231). -/
def msg_unsupported : String := "❌ Sorry, this website or video URL is not supported."

/-- Categorized message for errors containing `Video unavailable`
(src/bot.py line 233). -/
def msg_unavailable : String := "❌ This video is unavailable or private."

/-- Categorized message for errors containing `Unable to extract`
(src/bot.py line 235). -/
def msg_unable_extract : String := "❌ Could not extract video information. The link might be broken or unsupported."

/-- The default failure message carrying the raw tool error text
(src/bot.py line 229). -/
def generic_download_error (e : String) : String :=
  "❌ Failed to download video.\nError: `" ++ e ++ "`"

/-- Embedding of the `yt_dlp.utils.DownloadError` handler of src/bot.py lines
227-236: the default message carrying `str(e)` is overridden, in priority
order, by the three categorized messages. -/
def map_download_error (e : String) : String :=
  if containsSubstr e "Unsupported URL" then msg_unsupported
  else if containsSubstr e "Video unavailable" then msg_unavailable
  else if containsSubstr e "Unable to extract" then msg_unable_extract
  else generic_download_error e

/-- The single failure edit of the telethon variant (src/bot_telethon.py
line 266, also emitted by the hook at line 136). -/
def tele_download_error_message : String := "❌ yt-dlp encountered an error during download."

/-- The user-facing message the telethon variant shows for a tool failure,
as a function of the tool's error text: src/bot_telethon.py runs
`subprocess.run(cmd)` (line 240) without `check` or output capture, so the
failure edit (lines 264-267) never inspects the tool's error text and is the
one fixed string for every failure. -/
def tele_failure_user_message (_e : String) : String := tele_download_error_message

/-- Python `max(files, key=os.path.getctime)` over a directory listing of
`(name, ctime)` pairs (src/bot.py line 216, src/bot_telethon.py line 246):
`none` on an empty listing, else the first entry of maximal ctime. -/
def maxByCtime : List (String × Nat) → Option String
  | [] => none
  | x :: xs => some (xs.foldl (fun acc y => if y.2 > acc.2 then y else acc) x).1

/-- Result of the output-file resolution, recording whether the newest-mp4
directory-scan fallback was consulted. -/
structure ResolveResult where
  path : Option String
  usedFallback : Bool
  deriving DecidableEq

/-- The newest-`.mp4` directory-scan fallback (src/bot.py lines 213-217). -/
def resolveFallback (dirMp4s : List (String × Nat)) : ResolveResult :=
  match maxByCtime dirMp4s with
  | some p => ⟨some p, true⟩
  | none => ⟨none, true⟩

/-- Embedding of the result resolution of src/bot.py lines 210-221: the
filename popped from the chat store is used when present and existing on
disk; otherwise the directory-scan fallback is consulted. -/
def resolve_artifact (storedFilename : Option String) (fsExists : String → Bool)
    (dirMp4s : List (String × Nat)) : ResolveResult :=
  match storedFilename with
  | some f => if fsExists f then ⟨some f, false⟩ else resolveFallback dirMp4s
  | none => resolveFallback dirMp4s

/-- The yt-dlp options dict built by src/bot.py `downloader`
(lines 134-176). `progress_hooks` is the hook modelled separately;
`postprocessors` records whether the `FFmpegVideoConvertor` postprocessor was
added by the non-YouTube/non-Instagram branch (lines 171-173). -/
structure YdlOpts where
  format : Option String
  outtmpl : String
  noplaylist : Bool
  mergeOutputFormat : String
  maxFilesize : Option Nat
  cookies : Option String
  postprocessors : Bool
  deriving DecidableEq

/-- The size-constrained format selector of src/bot.py line 135, with
`MAX_FILE_SIZE_MB` interpolated. -/
def formatSelector : String :=
  "bestvideo[ext=mp4][filesize<" ++ toString MAX_FILE_SIZE_MB
    ++ "M]+bestaudio[ext=m4a]/best[ext=mp4][filesize<" ++ toString MAX_FILE_SIZE_MB
    ++ "M]/best[filesize<" ++ toString MAX_FILE_SIZE_MB ++ "M]"

/-- The initial `ydl_opts` dict of src/bot.py lines 134-153. -/
def baseYdlOpts : YdlOpts :=
  { format := some formatSelector
    outtmpl := DOWNLOAD_PATH ++ "%(title).200B.%(ext)s"
    noplaylist := true
    mergeOutputFormat := "mp4"
    maxFilesize := some sizeLimitBytes
    cookies := none
    postprocessors := false }

/-- Embedding of the cookie/format branch of src/bot.py lines 156-174:
on a YouTube URL with an existing cookie file the cookie path is set; on an
Instagram URL with an existing cookie file `del ydl_opts['format']` removes
the format selector and the cookie path is set; any other URL gains the
mp4-recode postprocessor. -/
def build_ydl_opts (url : String) (ytCookieExists instaCookieExists : Bool) : YdlOpts :=
  if is_youtube_url url then
    if ytCookieExists then { baseYdlOpts with cookies := some YOUTUBE_COOKIES_FILE }
    else baseYdlOpts
  else if is_instagram_url url then
    if instaCookieExists then
      { baseYdlOpts with format := none, cookies := some INSTAGRAM_COOKIES_FILE }
    else baseYdlOpts
  else
    { baseYdlOpts with postprocessors := true }

/-- The tool options src/bot.py builds for a handler request:
`download_command_handler` parses `start`/`end` (lines 276-293) but calls
`downloader(update, context, url)` with the URL only (line 295), and
`downloader` builds `ydl_opts` from the URL alone — the segment-handling code
of bot.py is commented out (lines 242-249). `none` when no URL token is
present or the URL is rejected before the options are built. -/
def bot_invocation_opts (args : List String) (ytCookieExists instaCookieExists : Bool) :
    Option YdlOpts :=
  match args with
  | [] => none
  | url :: _ =>
    if isValidUrl url then some (build_ydl_opts url ytCookieExists instaCookieExists)
    else none

/-- The yt-dlp options dict built by src/bot_telethon.py `downloader_segment`
(lines 162-181). -/
structure TeleYdlOpts where
  output : String
  noPlaylist : Bool
  mergeOutputFormat : String
  downloadSections : Option String
  forceKeyframesAtCuts : Bool
  deriving DecidableEq

/-- Embedding of src/bot_telethon.py lines 162-181: with both times truthy the
section `*start-end` plus forced keyframes at cuts is requested; with only a
start time the section `*start` plus forced keyframes; otherwise no section
entry is added (full download). -/
def tele_build_opts (start_time_str end_time_str : Option String) : TeleYdlOpts :=
  let base : TeleYdlOpts :=
    { output := DOWNLOAD_PATH ++ "%(title)s.200B.%(ext)s"
      noPlaylist := true
      mergeOutputFormat := "mp4"
      downloadSections := none
      forceKeyframesAtCuts := false }
  if pyTruthy start_time_str && pyTruthy end_time_str then
    { base with
        downloadSections := some ("*" ++ start_time_str.getD "" ++ "-" ++ end_time_str.getD "")
        forceKeyframesAtCuts := true }
  else if pyTruthy start_time_str then
    { base with
        downloadSections := some ("*" ++ start_time_str.getD "")
        forceKeyframesAtCuts := true }
  else base

/-- The options dict in its Python insertion order, as key/value pairs
(src/bot_telethon.py lines 162-177). -/
def tele_ydl_opts_list (o : TeleYdlOpts) : List (String × String) :=
  [("output", o.output), ("no-playlist", ""), ("merge-output-format", o.mergeOutputFormat)]
    ++ (match o.downloadSections with
        | some s => [("download-sections", s)]
        | none => [])
    ++ (if o.forceKeyframesAtCuts then [("force-keyframes-at-cuts", "")] else [])

/-- The flag-list builder of src/bot_telethon.py lines 188-193: for each
pair, `--key` when the key is non-empty, then the value when non-empty. -/
def tele_cmd_args (opts : List (String × String)) : List String :=
  (opts.map fun kv =>
    (if kv.1 != "" then ["--" ++ kv.1] else []) ++ (if kv.2 != "" then [kv.2] else [])).flatten

/-- The subprocess command `["yt-dlp", *ydl_opts_list, url]`
(src/bot_telethon.py line 195). -/
def tele_cmd (o : TeleYdlOpts) (url : String) : List String :=
  "yt-dlp" :: (tele_cmd_args (tele_ydl_opts_list o) ++ [url])

/-- Terminal outcome of the yt-dlp library invocation inside src/bot.py
`downloader`: success, a `yt_dlp.utils.DownloadError` with its message, any
other exception from the inner `try` (line 238), or an exception caught by
the outer `try` (line 251). -/
inductive ToolResult where
  | ok
  | downloadError (msg : String)
  | otherError (msg : String)
  | outerException
  deriving DecidableEq

/-- Observable outcome of one run of src/bot.py `downloader` (lines 113-254).
`ret = none` models the bare `return` statements (lines 118, 221, 237, 241)
that return Python `None` despite the declared `-> tuple`; `ret = some path`
models the tuple return of line 254 with `downloaded_file_path = path`. -/
structure DownloaderOutcome where
  invalidUrlReply : Bool
  toolInvoked : Bool
  errorEdit : Option String
  ret : Option (Option String)
  deriving DecidableEq

/-- Embedding of the control flow of src/bot.py `downloader` (lines 113-254):
an invalid URL is rejected before anything else (lines 116-118, so the tool is
never invoked); a `DownloadError` is categorized by `map_download_error` and
the function bare-returns; other inner exceptions edit a generic message and
bare-return; the outer handler edits and falls through to the tuple return;
on success the artifact is resolved, bare-returning when nothing resolves
(lines 218-221). -/
def downloader_run (url : String) (tool : ToolResult) (storedFilename : Option String)
    (fsExists : String → Bool) (dirMp4s : List (String × Nat)) : DownloaderOutcome :=
  if !(isValidUrl url) then
    ⟨true, false, none, none⟩
  else
    match tool with
    | .downloadError e => ⟨false, true, some (map_download_error e), none⟩
    | .otherError e =>
      ⟨false, true, some ("❌ An error occurred during video processing: " ++ e), none⟩
    | .outerException =>
      ⟨false, true, some "❌ An unexpected error occurred. Please try again later.", some none⟩
    | .ok =>
      match (resolve_artifact storedFilename fsExists dirMp4s).path with
      | some p => ⟨false, true, none, some (some p)⟩
      | none =>
        ⟨false, true,
          some "❌ Download seemed to complete, but I couldn't find the file. Please try again.",
          none⟩

/-- Observable outcome of the delivery-and-cleanup phase of a handler. -/
structure DeliveryOutcome where
  sizeExceededReported : Bool
  uploadAttempted : Bool
  uploadSucceeded : Bool
  processingDeleted : Bool
  failMessage : Option String
  fileRemoved : Bool
  finalStore : ChatStore
  deriving DecidableEq

/-- Embedding of src/bot.py `download_command_handler` lines 297-359 (the
`try`/`except`/`finally` after `downloader` returned a tuple). Note that the
`return` on the size-exceeded path (line 307) still runs the `finally` block
of lines 348-359, so the artifact file is removed and the job keys cleared on
that path too, the inline comment notwithstanding. -/
def delivery_and_cleanup (filePath : Option String) (fsExists : String → Bool)
    (fileSize : Nat) (uploadOk : Bool) (uploadErrText : String)
    (store : ChatStore) : DeliveryOutcome :=
  let hasFile :=
    match filePath with
    | some p => fsExists p
    | none => false
  if hasFile then
    if fileSize > sizeLimitBytes then
      { sizeExceededReported := true, uploadAttempted := false, uploadSucceeded := false
        processingDeleted := false, failMessage := none
        fileRemoved := true, finalStore := emptyStore }
    else
      { sizeExceededReported := false, uploadAttempted := true, uploadSucceeded := uploadOk
        processingDeleted := uploadOk
        failMessage :=
          if uploadOk then none
          else some ("❌ Failed to upload video to Telegram: " ++ uploadErrText)
        fileRemoved := true, finalStore := emptyStore }
  else
    { sizeExceededReported := false, uploadAttempted := false, uploadSucceeded := false
      processingDeleted := false
      failMessage :=
        if store.downloadError then none
        else some "❌ Download failed or no file was produced. Please check the URL or try again."
      fileRemoved := false, finalStore := emptyStore }

/-- Embedding of src/bot_telethon.py `download_command_tele_handler` lines
360-411 after `downloader_segment` returned: there is no size check of any
kind — every existing file is uploaded — and the `finally` block (lines
400-411) removes the file and clears the job keys. -/
def tele_delivery_and_cleanup (filePath : Option String) (fsExists : String → Bool)
    (uploadOk : Bool) (uploadErrText : String) (store : ChatStore) : DeliveryOutcome :=
  let hasFile :=
    match filePath with
    | some p => fsExists p
    | none => false
  if hasFile then
    { sizeExceededReported := false, uploadAttempted := true, uploadSucceeded := uploadOk
      processingDeleted := uploadOk
      failMessage :=
        if uploadOk then none
        else some ("❌ Failed to upload video to Telegram: " ++ uploadErrText)
      fileRemoved := true, finalStore := emptyStore }
  else
    { sizeExceededReported := false, uploadAttempted := false, uploadSucceeded := false
      processingDeleted := false
      failMessage :=
        if store.downloadError then none
        else some "❌ Download failed or no file was produced. Please check the URL or try again."
      fileRemoved := false, finalStore := emptyStore }

/-- How one run of `download_command_handler` ends. -/
inductive HandlerEnd where
  | completed
  | crashedTypeError
  deriving DecidableEq

/-- Embedding of a full run of src/bot.py `download_command_handler` (lines
258-359) around a given tool outcome. `store` is the per-chat store as left by
the progress hooks of the download phase. When `downloader` bare-returns
(`ret = none`), the tuple unpacking at line 295 raises `TypeError` before the
`try`/`finally` of lines 297-359 is entered, so the store is left as is;
otherwise the delivery-and-cleanup phase runs and clears the job keys. -/
def download_command_handler_run (args : List String) (tool : ToolResult)
    (store : ChatStore) (fsExists : String → Bool) (dirMp4s : List (String × Nat))
    (fileSize : Nat) (uploadOk : Bool) (uploadErrText : String) :
    ChatStore × HandlerEnd :=
  match args with
  | [] => (store, .completed)
  | url :: _ =>
    let dl := downloader_run url tool store.downloadFilename fsExists dirMp4s
    let store1 :=
      match tool with
      | .ok =>
        if isValidUrl url then { store with downloadFilename := none } else store
      | _ => store
    match dl.ret with
    | none => (store1, .crashedTypeError)
    | some path =>
      ((delivery_and_cleanup path fsExists fileSize uploadOk uploadErrText store1).finalStore,
        .completed)

/-- Observable outcome of one run of src/bot_telethon.py `downloader_segment`
(lines 139-278). -/
structure TeleDlOutcome where
  invalidUrlReply : Bool
  toolInvoked : Bool
  cmd : Option (List String)
  ret : Option String
  errorFlagSet : Bool
  deriving DecidableEq

/-- Embedding of the control flow of src/bot_telethon.py `downloader_segment`:
an invalid URL is rejected before anything else (lines 145-147); otherwise the
subprocess command is built and run, and since `downloaded_file_path` is never
assigned from the subprocess, the newest-mp4 fallback is always consulted
(lines 242-249); with no candidate file the error flag is set (lines
253-255). -/
def tele_downloader_run (url : String) (start_time_str end_time_str : Option String)
    (fsExists : String → Bool) (dirMp4s : List (String × Nat)) : TeleDlOutcome :=
  if !(isValidUrl url) then ⟨true, false, none, none, false⟩
  else
    let cmd := tele_cmd (tele_build_opts start_time_str end_time_str) url
    match maxByCtime dirMp4s with
    | some p =>
      if fsExists p then ⟨false, true, some cmd, some p, false⟩
      else ⟨false, true, some cmd, some p, true⟩
    | none => ⟨false, true, some cmd, none, true⟩

end TheCollector

namespace TheCollector

theorem data_nil_iff (s : String) : s.data = [] ↔ s = "" := by
  constructor
  · intro h
    cases s with
    | mk d => cases h; rfl
  · intro h
    cases h; rfl

/-- C8: `is_time_like s` is true iff `s` is non-empty and either contains the
character `:` or consists entirely of decimal digits. -/
theorem is_time_like_spec (s : String) :
    is_time_like s = true ↔
      s ≠ "" ∧ (s.data.contains ':' = true ∨ s.data.all Char.isDigit = true) := by
  unfold is_time_like pyIsDigit
  by_cases h : s = ""
  · subst h
    simp
  · have hbeq : (s == "") = false := by
      simpa using h
    have hdata : s.data.isEmpty = false := by
      cases hd : s.data with
      | nil => exact absurd ((data_nil_iff s).mp hd) h
      | cons c t => rfl
    simp [hbeq, hdata, h]

/-- C8 witness: concrete evaluations of `is_time_like_spec`. -/
theorem is_time_like_spec_witness :
    (is_time_like "0:10" = true ↔
      ("0:10" : String) ≠ "" ∧
        (("0:10" : String).data.contains ':' = true ∨
          ("0:10" : String).data.all Char.isDigit = true)) :=
  is_time_like_spec "0:10"

/-- C3: when the second token is not time-like, `start` stays unset, the
start warning is emitted, and no end time is ever taken from the third token
(the third token is not even inspected for time-likeness). -/
theorem start_rejected_blocks_end (args : List String) (tok : String)
    (h1 : args.get? 1 = some tok) (h2 : is_time_like tok = false) :
    (parse_time_args args).start_time_str = none ∧
      warnStart tok ∈ (parse_time_args args).warnings ∧
      (parse_time_args args).end_time_str = none := by
  unfold parse_time_args
  rw [h1]
  simp only [h2]
  cases h3 : args.get? 2 <;> simp [pyTruthy]

/-- C3 witness: second token `abc` is rejected; the third token `0:50` is
time-like yet is not interpreted as an end time. -/
theorem start_rejected_blocks_end_witness :
    (["http://u", "abc", "0:50"].get? 1 = some "abc") ∧
      is_time_like "abc" = false ∧ is_time_like "0:50" = true ∧
      (parse_time_args ["http://u", "abc", "0:50"]).start_time_str = none ∧
      warnStart "abc" ∈ (parse_time_args ["http://u", "abc", "0:50"]).warnings ∧
      (parse_time_args ["http://u", "abc", "0:50"]).end_time_str = none := by
  refine ⟨rfl, by decide, by decide, ?_⟩
  exact start_rejected_blocks_end ["http://u", "abc", "0:50"] "abc" rfl (by decide)

theorem relay_run_cons (s : ChatStore) (e : ProgressEvent) (rest : List ProgressEvent) :
    relay_run s (e :: rest) =
      ((relay_run (download_progress_hook e s).1 rest).1,
        (download_progress_hook e s).2.toList
          ++ (relay_run (download_progress_hook e s).1 rest).2) := rfl

theorem hook_downloading_eq (s : ChatStore) (percent totalBytes speed eta : String) :
    download_progress_hook (.downloading percent totalBytes speed eta) s =
      if (s.lastProgressMsg.getD "" != formatProgress percent totalBytes speed eta) = true then
        ({ s with lastProgressMsg := some (formatProgress percent totalBytes speed eta) },
          some (formatProgress percent totalBytes speed eta))
      else (s, none) := rfl

theorem relay_run_all_equal_zero (t : String) (evs : List ProgressEvent)
    (s : ChatStore) (hs : s.lastProgressMsg.getD "" = t)
    (h : ∀ e ∈ evs, isDownloadingWithText t e = true) :
    (relay_run s evs).2 = [] := by
  induction evs generalizing s with
  | nil => rfl
  | cons e rest ih =>
    have he := h e (List.mem_cons_self e rest)
    cases e with
    | downloading percent totalBytes speed eta =>
      have hfmt : formatProgress percent totalBytes speed eta = t := by
        simpa [isDownloadingWithText] using he
      rw [relay_run_cons, hook_downloading_eq, hfmt, hs]
      simp only [bne_self_eq_false, Bool.false_eq_true, if_false]
      simpa using ih s hs (fun e' he' => h e' (List.mem_cons_of_mem _ he'))
    | finished filename => simp [isDownloadingWithText] at he
    | error => simp [isDownloadingWithText] at he

/-- C5: starting from a job with no recorded progress text, a sequence of
`downloading` events whose formatted texts are all identical causes at most
one chat edit; and any `downloading` event whose formatted text equals the
text last recorded for the job triggers no edit at all. -/
theorem progress_dedup (t : String) (evs : List ProgressEvent) (s : ChatStore)
    (hs : s.lastProgressMsg = none)
    (h : ∀ e ∈ evs, isDownloadingWithText t e = true) :
    (relay_run s evs).2.length ≤ 1 ∧
      ∀ (s2 : ChatStore) (percent totalBytes speed eta : String),
        formatProgress percent totalBytes speed eta = s2.lastProgressMsg.getD "" →
        (download_progress_hook (.downloading percent totalBytes speed eta) s2).2 = none := by
  constructor
  · cases evs with
    | nil => simp [relay_run]
    | cons e rest =>
      have he := h e (List.mem_cons_self e rest)
      have hrest : ∀ e' ∈ rest, isDownloadingWithText t e' = true :=
        fun e' he' => h e' (List.mem_cons_of_mem _ he')
      cases e with
      | downloading percent totalBytes speed eta =>
        have hfmt : formatProgress percent totalBytes speed eta = t := by
          simpa [isDownloadingWithText] using he
        rw [relay_run_cons, hook_downloading_eq, hfmt, hs]
        by_cases ht : t = ""
        · subst ht
          simp only [Option.getD_none, bne_self_eq_false, Bool.false_eq_true, if_false]
          rw [relay_run_all_equal_zero "" rest s (by rw [hs]; rfl) hrest]
          simp
        · have hne : (("" : String) != t) = true := by
            simp only [bne_iff_ne, ne_eq]
            exact fun hx => ht hx.symm
          simp only [Option.getD_none, hne, if_true]
          rw [relay_run_all_equal_zero t rest
            { s with lastProgressMsg := some t } (by simp) hrest]
          simp
      | finished filename => simp [isDownloadingWithText] at he
      | error => simp [isDownloadingWithText] at he
  · intro s2 percent totalBytes speed eta hfmt
    rw [hook_downloading_eq, ← hfmt]
    simp

/-- C5 witness: three raw events with identical formatted text produce
exactly one edit from a fresh job. -/
theorem progress_dedup_witness :
    (emptyStore.lastProgressMsg = none) ∧
      (∀ e ∈ ([.downloading "50.0%" "10.00MiB" "1.00MiB/s" "00:05",
               .downloading "\x1b[0;94m50.0%\x1b[0m" "10.00MiB" "1.00MiB/s" "00:05",
               .downloading "50.0%" "10.00MiB" "1.00MiB/s" "00:05"] : List ProgressEvent),
        isDownloadingWithText (formatProgress "50.0%" "10.00MiB" "1.00MiB/s" "00:05") e = true) ∧
      (relay_run emptyStore
        [.downloading "50.0%" "10.00MiB" "1.00MiB/s" "00:05",
         .downloading "\x1b[0;94m50.0%\x1b[0m" "10.00MiB" "1.00MiB/s" "00:05",
         .downloading "50.0%" "10.00MiB" "1.00MiB/s" "00:05"]).2.length ≤ 1 := by
  refine ⟨rfl, by decide, ?_⟩
  exact (progress_dedup (formatProgress "50.0%" "10.00MiB" "1.00MiB/s" "00:05") _
    emptyStore rfl (by decide)).1

theorem isPrefixOf_exists {l1 l2 : List Char} (h : l1.isPrefixOf l2 = true) :
    ∃ t, l2 = l1 ++ t := by
  induction l1 generalizing l2 with
  | nil => exact ⟨l2, rfl⟩
  | cons a as ih =>
    cases l2 with
    | nil => simp [List.isPrefixOf] at h
    | cons b bs =>
      simp only [List.isPrefixOf, Bool.and_eq_true, beq_iff_eq] at h
      obtain ⟨rfl, h2⟩ := h
      obtain ⟨t, rfl⟩ := ih h2
      exact ⟨t, rfl⟩

theorem drop_len_append (p t : List Char) : (p ++ t).drop p.length = t := by
  induction p with
  | nil => rfl
  | cons a as ih => simp [ih]

theorem getq_append_left (l1 l2 : List Char) (n : Nat) (h : n < l1.length) :
    (l1 ++ l2).get? n = l1.get? n := by
  induction l1 generalizing n with
  | nil => simp at h
  | cons a as ih =>
    cases n with
    | zero => rfl
    | succ m =>
      simp only [List.cons_append, List.get?_cons_succ]
      exact ih m (Nat.lt_of_succ_lt_succ (by simpa using h))

theorem getq_append_self (l1 : List Char) (c : Char) (t : List Char) :
    (l1 ++ c :: t).get? l1.length = some c := by
  induction l1 with
  | nil => rfl
  | cons a as ih => simpa using ih

theorem get_clash {a b r rest : List Char} (h : a ++ r = b ++ ('y' :: rest))
    (hn : b.length < a.length) (ha : a.get? b.length ≠ some 'y') : False := by
  have h1 : (a ++ r).get? b.length = a.get? b.length := getq_append_left a r b.length hn
  rw [h, getq_append_self] at h1
  exact ha h1.symm

theorem mem_stripPrefixOptChoices {choices : List (List Char)} {s r : List Char}
    (h : r ∈ stripPrefixOptChoices choices s) :
    r = s ∨ ∃ p, p ∈ choices ∧ s = p ++ r := by
  unfold stripPrefixOptChoices at h
  rcases List.mem_cons.mp h with h1 | h1
  · exact Or.inl h1
  · right
    obtain ⟨p, hp, hif⟩ := List.mem_filterMap.mp h1
    cases hb : p.isPrefixOf s with
    | false => rw [hb] at hif; simp at hif
    | true =>
      rw [hb] at hif
      simp only [if_true] at hif
      obtain ⟨t, rfl⟩ := isPrefixOf_exists hb
      injection hif with hr
      rw [drop_len_append] at hr
      exact ⟨p, hp, by rw [hr]⟩

theorem scheme_www_decomp {u s1 s2 : List Char}
    (h1 : s1 ∈ schemeStripped u) (h2 : s2 ∈ wwwStripped s1) :
    ∃ p, p ∈ optionalPrefixes ∧ u = p ++ s2 := by
  rcases mem_stripPrefixOptChoices h1 with rfl | ⟨ps, hps, rfl⟩
  · rcases mem_stripPrefixOptChoices h2 with rfl | ⟨pw, hpw, rfl⟩
    · exact ⟨[], by decide, rfl⟩
    · refine ⟨pw, ?_, rfl⟩
      fin_cases hpw
      decide
  · rcases mem_stripPrefixOptChoices h2 with rfl | ⟨pw, hpw, rfl⟩
    · refine ⟨ps, ?_, rfl⟩
      fin_cases hps <;> decide
    · refine ⟨ps ++ pw, ?_, by rw [List.append_assoc]⟩
      fin_cases hps <;> fin_cases hpw <;> decide

theorem instaTail_decomp {s : List Char} (h : instaTail s = true) :
    ∃ r, s = "instagram.com/".data ++ r := by
  unfold instaTail at h
  rw [Bool.and_eq_true] at h
  exact isPrefixOf_exists h.1

theorem ytHostAndTail_head {s : List Char} (h : ytHostAndTail s = true) :
    ∃ rest, s = 'y' :: rest := by
  unfold ytHostAndTail at h
  simp only [List.any_eq_true] at h
  obtain ⟨host, hmem, hcond⟩ := h
  rw [Bool.and_eq_true] at hcond
  have hpre := hcond.1
  obtain ⟨t, rfl⟩ := isPrefixOf_exists hpre
  fin_cases hmem <;> exact ⟨_, rfl⟩

theorem insta_decomp {url : String} (h : is_instagram_url url = true) :
    ∃ p r, p ∈ optionalPrefixes ∧ url.data = p ++ ("instagram.com/".data ++ r) := by
  unfold is_instagram_url at h
  simp only [List.any_eq_true] at h
  obtain ⟨s1, hs1, s2, hs2, htail⟩ := h
  obtain ⟨p, hp, hu⟩ := scheme_www_decomp hs1 hs2
  obtain ⟨r, hr⟩ := instaTail_decomp htail
  exact ⟨p, r, hp, by rw [hu, hr]⟩

theorem yt_decomp {url : String} (h : is_youtube_url url = true) :
    ∃ p rest, p ∈ optionalPrefixes ∧ url.data = p ++ ('y' :: rest) := by
  unfold is_youtube_url at h
  simp only [List.any_eq_true] at h
  obtain ⟨s1, hs1, s2, hs2, htail⟩ := h
  obtain ⟨p, hp, hu⟩ := scheme_www_decomp hs1 hs2
  obtain ⟨rest, hr⟩ := ytHostAndTail_head htail
  exact ⟨p, rest, hp, by rw [hu, hr]⟩

theorem optionalPrefixes_clash {p q r rest : List Char} (hp : p ∈ optionalPrefixes)
    (hq : q ∈ optionalPrefixes)
    (h : p ++ ("instagram.com/".data ++ r) = q ++ ('y' :: rest)) : False := by
  rw [← List.append_assoc] at h
  simp only [optionalPrefixes, List.mem_cons, List.not_mem_nil, or_false] at hp hq
  rcases hp with rfl | rfl | rfl | rfl | rfl | rfl <;>
    rcases hq with rfl | rfl | rfl | rfl | rfl | rfl <;>
      exact get_clash h (by decide) (by decide)

theorem insta_not_youtube {url : String} (h : is_instagram_url url = true) :
    is_youtube_url url = false := by
  cases hyt : is_youtube_url url with
  | false => rfl
  | true =>
    exfalso
    obtain ⟨p, r, hp, hi⟩ := insta_decomp h
    obtain ⟨q, rest, hq, hy⟩ := yt_decomp hyt
    exact optionalPrefixes_clash hp hq (hi.symm.trans hy)

/-- C10: for every URL matching the Instagram pattern, when the Instagram
cookie file exists the adapter deletes the `format` option before invoking
the tool, so the invocation carries no format selector (and hence no format
preference or filesize-ceiling constraint in it). -/
theorem instagram_deletes_format (url : String) (ytCookieExists : Bool)
    (h : is_instagram_url url = true) :
    (build_ydl_opts url ytCookieExists true).format = none := by
  unfold build_ydl_opts
  rw [insta_not_youtube h, h]
  simp

/-- C10 witness: a concrete Instagram reel URL. -/
theorem instagram_deletes_format_witness :
    is_instagram_url "https://www.instagram.com/reel/abc123xyz" = true ∧
      (build_ydl_opts "https://www.instagram.com/reel/abc123xyz" false true).format = none :=
  ⟨by decide, instagram_deletes_format "https://www.instagram.com/reel/abc123xyz" false (by decide)⟩

theorem resolve_artifact_some (f : String) (fsExists : String → Bool)
    (dirMp4s : List (String × Nat)) :
    resolve_artifact (some f) fsExists dirMp4s =
      if fsExists f then ⟨some f, false⟩ else resolveFallback dirMp4s := rfl

/-- C4: a `Finished{filename}` event whose reported file exists on disk makes
the resolver return exactly that path with the fallback unconsulted, for
every directory listing — the newest-mp4 scan plays no part. -/
theorem finished_filename_resolved (f : String) (s : ChatStore)
    (fsExists : String → Bool) (dirMp4s : List (String × Nat)) (h : fsExists f = true) :
    resolve_artifact
        (download_progress_hook (.finished (some f)) s).1.downloadFilename
        fsExists dirMp4s
      = ⟨some f, false⟩ := by
  have h1 : (download_progress_hook (.finished (some f)) s).1.downloadFilename = some f := rfl
  rw [h1, resolve_artifact_some, h]
  simp

/-- C4 witness: the stored filename exists; a different, newer mp4 sits in
the directory and is ignored. -/
theorem finished_filename_resolved_witness :
    ((fun p => p == "video_downloads/a.mp4") "video_downloads/a.mp4" = true) ∧
      resolve_artifact
        (download_progress_hook (.finished (some "video_downloads/a.mp4")) emptyStore).1.downloadFilename
        (fun p => p == "video_downloads/a.mp4") [("video_downloads/b.mp4", 7)]
        = ⟨some "video_downloads/a.mp4", false⟩ :=
  ⟨by decide, finished_filename_resolved "video_downloads/a.mp4" emptyStore
    (fun p => p == "video_downloads/a.mp4") [("video_downloads/b.mp4", 7)] (by decide)⟩

/-- C7: a URL token not starting with http:// or https:// makes both variants
reply with the invalid-input message immediately; the extraction tool is
never invoked. -/
theorem invalid_url_no_job (url : String) (tool : ToolResult) (stored : Option String)
    (fsExists : String → Bool) (dirMp4s : List (String × Nat))
    (start_time_str end_time_str : Option String) (h : isValidUrl url = false) :
    (downloader_run url tool stored fsExists dirMp4s).invalidUrlReply = true ∧
      (downloader_run url tool stored fsExists dirMp4s).toolInvoked = false ∧
      (tele_downloader_run url start_time_str end_time_str fsExists dirMp4s).invalidUrlReply = true ∧
      (tele_downloader_run url start_time_str end_time_str fsExists dirMp4s).toolInvoked = false := by
  unfold downloader_run tele_downloader_run
  rw [h]
  simp

/-- C7 witness: the request `download not-a-url`. -/
theorem invalid_url_no_job_witness :
    isValidUrl "not-a-url" = false ∧
      (downloader_run "not-a-url" .ok none (fun _ => false) []).invalidUrlReply = true ∧
      (downloader_run "not-a-url" .ok none (fun _ => false) []).toolInvoked = false ∧
      (tele_downloader_run "not-a-url" none none (fun _ => false) []).invalidUrlReply = true ∧
      (tele_downloader_run "not-a-url" none none (fun _ => false) []).toolInvoked = false := by
  have h := invalid_url_no_job "not-a-url" .ok none (fun _ => false) [] none none (by decide)
  exact ⟨by decide, h.1, h.2.1, h.2.2.1, h.2.2.2⟩

theorem generic_download_error_data (e : String) :
    (generic_download_error e).data
      = ("❌ Failed to download video.\nError: `".data ++ e.data) ++ "`".data := rfl

theorem generic_char2 (e : String) :
    (generic_download_error e).data.get? 2 = some 'F' := by
  rw [generic_download_error_data]
  rw [getq_append_left _ _ 2 (by
    rw [List.length_append]
    exact Nat.lt_of_lt_of_le (by decide) (Nat.le_add_right _ _))]
  rw [getq_append_left _ _ 2 (by decide)]
  decide

theorem generic_ne_categorized (e : String) :
    generic_download_error e ≠ msg_unsupported ∧
      generic_download_error e ≠ msg_unavailable ∧
      generic_download_error e ≠ msg_unable_extract := by
  refine ⟨fun h => ?_, fun h => ?_, fun h => ?_⟩ <;>
    · have h2 := generic_char2 e
      rw [h] at h2
      revert h2
      decide

theorem isPrefixOf_self_append (l s : List Char) : l.isPrefixOf (l ++ s) = true := by
  induction l with
  | nil => cases s <;> rfl
  | cons a as ih => simp [List.isPrefixOf, ih]

theorem listContainsSub_append (n p s : List Char) :
    listContainsSub n (p ++ (n ++ s)) = true := by
  induction p with
  | nil =>
    cases n with
    | nil => cases s <;> rfl
    | cons c t =>
      have h := isPrefixOf_self_append (c :: t) s
      rw [List.cons_append] at h
      simp [listContainsSub, h]
  | cons a p ih =>
    simp [listContainsSub, ih]

theorem containsSubstr_generic (e : String) :
    containsSubstr (generic_download_error e) e = true := by
  unfold containsSubstr
  rw [generic_download_error_data, List.append_assoc]
  exact listContainsSub_append e.data _ _

/-- C6 counterexample: in the subprocess variant the user-facing failure
message is one fixed string — a tool failure whose error text contains
"Unsupported URL" gets exactly the same message as any other failure (not a
distinct categorized one), and the message does not carry the raw tool error
text. -/
theorem tele_error_not_categorized :
    tele_failure_user_message "ERROR: Unsupported URL: ftp://host/clip"
        = tele_failure_user_message "ERROR: network timeout" ∧
      tele_failure_user_message "ERROR: Unsupported URL: ftp://host/clip" ≠ msg_unsupported ∧
      containsSubstr (tele_failure_user_message "ERROR: network timeout")
        "ERROR: network timeout" = false := by
  exact ⟨rfl, by decide, by decide⟩

/-- C6 (amended): in src/bot.py the three substrings map, in priority order,
to three pairwise-distinct fixed messages; any other tool failure maps to a
generic message that carries the raw error text and differs from all three;
in src/bot_telethon.py the user-facing failure message is one fixed string
independent of the tool's error text. -/
theorem download_error_mapping (e : String) :
    (containsSubstr e "Unsupported URL" = true →
        map_download_error e = msg_unsupported) ∧
      (containsSubstr e "Unsupported URL" = false →
        containsSubstr e "Video unavailable" = true →
        map_download_error e = msg_unavailable) ∧
      (containsSubstr e "Unsupported URL" = false →
        containsSubstr e "Video unavailable" = false →
        containsSubstr e "Unable to extract" = true →
        map_download_error e = msg_unable_extract) ∧
      (containsSubstr e "Unsupported URL" = false →
        containsSubstr e "Video unavailable" = false →
        containsSubstr e "Unable to extract" = false →
        map_download_error e = generic_download_error e
          ∧ containsSubstr (map_download_error e) e = true) ∧
      (msg_unsupported ≠ msg_unavailable ∧ msg_unsupported ≠ msg_unable_extract
        ∧ msg_unavailable ≠ msg_unable_extract
        ∧ generic_download_error e ≠ msg_unsupported
        ∧ generic_download_error e ≠ msg_unavailable
        ∧ generic_download_error e ≠ msg_unable_extract) ∧
      (∀ e2 : String, tele_failure_user_message e = tele_failure_user_message e2) := by
  obtain ⟨g1, g2, g3⟩ := generic_ne_categorized e
  refine ⟨?_, ?_, ?_, ?_, ⟨by decide, by decide, by decide, g1, g2, g3⟩, fun e2 => rfl⟩
  · intro h1
    simp [map_download_error, h1]
  · intro h1 h2
    simp [map_download_error, h1, h2]
  · intro h1 h2 h3
    simp [map_download_error, h1, h2, h3]
  · intro h1 h2 h3
    have hm : map_download_error e = generic_download_error e := by
      simp [map_download_error, h1, h2, h3]
    exact ⟨hm, hm ▸ containsSubstr_generic e⟩

/-- C6 witness: one categorized and one generic failure, evaluated
concretely. -/
theorem download_error_mapping_witness :
    containsSubstr "ERROR: Unsupported URL: ftp://x" "Unsupported URL" = true ∧
      map_download_error "ERROR: Unsupported URL: ftp://x" = msg_unsupported ∧
      containsSubstr "ERROR: disk full" "Unsupported URL" = false ∧
      containsSubstr "ERROR: disk full" "Video unavailable" = false ∧
      containsSubstr "ERROR: disk full" "Unable to extract" = false ∧
      map_download_error "ERROR: disk full" = generic_download_error "ERROR: disk full" := by
  refine ⟨by decide, (download_error_mapping "ERROR: Unsupported URL: ftp://x").1 (by decide),
    by decide, by decide, by decide,
    ((download_error_mapping "ERROR: disk full").2.2.2.1 (by decide) (by decide) (by decide)).1⟩

/-- C2 (code divergence): for `/download https://example.com/v 0:10 0:50`
both times parse; the telethon variant requests the trimmed section with
forced keyframe alignment (`*start-end` with both times, `*start` with only a
start, nothing with no times); but the bot.py variant builds tool options
identical to the no-times request — the parsed times never reach its
invocation (the segment code of src/bot.py is commented out and `downloader`
receives only the URL). -/
theorem segment_times_ignored_in_bot_py :
    (parse_time_args ["https://example.com/v", "0:10", "0:50"]).start_time_str = some "0:10" ∧
      (parse_time_args ["https://example.com/v", "0:10", "0:50"]).end_time_str = some "0:50" ∧
      bot_invocation_opts ["https://example.com/v", "0:10", "0:50"] false false
        = bot_invocation_opts ["https://example.com/v"] false false ∧
      (tele_build_opts (some "0:10") (some "0:50")).downloadSections = some "*0:10-0:50" ∧
      (tele_build_opts (some "0:10") (some "0:50")).forceKeyframesAtCuts = true ∧
      (tele_build_opts (some "0:10") none).downloadSections = some "*0:10" ∧
      (tele_build_opts (some "0:10") none).forceKeyframesAtCuts = true ∧
      (tele_build_opts none none).downloadSections = none ∧
      (tele_build_opts none none).forceKeyframesAtCuts = false := by
  decide

/-- C1 (code divergence): at one byte over the ceiling the bot.py delivery
step reports size-exceeded and does not attempt the upload, but the `finally`
block still removes the artifact file; at the ceiling the upload is attempted
and the file removed even when the upload fails; the telethon delivery has no
size check at all and attempts the upload regardless of size. -/
theorem size_exceeded_still_deletes :
    (delivery_and_cleanup (some "video_downloads/big.mp4") (fun _ => true)
        (sizeLimitBytes + 1) true "" emptyStore).sizeExceededReported = true ∧
      (delivery_and_cleanup (some "video_downloads/big.mp4") (fun _ => true)
        (sizeLimitBytes + 1) true "" emptyStore).uploadAttempted = false ∧
      (delivery_and_cleanup (some "video_downloads/big.mp4") (fun _ => true)
        (sizeLimitBytes + 1) true "" emptyStore).fileRemoved = true ∧
      (delivery_and_cleanup (some "video_downloads/ok.mp4") (fun _ => true)
        sizeLimitBytes false "boom" emptyStore).uploadAttempted = true ∧
      (delivery_and_cleanup (some "video_downloads/ok.mp4") (fun _ => true)
        sizeLimitBytes false "boom" emptyStore).fileRemoved = true ∧
      (tele_delivery_and_cleanup (some "video_downloads/big.mp4") (fun _ => true)
        true "" emptyStore).uploadAttempted = true ∧
      (tele_delivery_and_cleanup (some "video_downloads/big.mp4") (fun _ => true)
        true "" emptyStore).sizeExceededReported = false := by
  decide

/-- C9 (code divergence): when the tool raises a `DownloadError` after
progress was reported, `downloader` bare-returns `None` (despite its
`-> tuple` annotation), the caller's tuple unpacking at src/bot.py line 295
raises `TypeError` before the cleanup `finally` is entered, and the
job-scoped last-progress key survives the run; on the tuple-returning paths
and in the telethon variant the keys are cleared. -/
theorem download_failure_skips_cleanup :
    (download_command_handler_run ["https://example.com/v"]
        (.downloadError "ERROR: fragment 3 not found")
        ⟨none, false, some "Downloading...\nProgress:  50.0%\nSize: 10.00MiB\nSpeed: 1.00MiB/s\nETA: 00:05"⟩
        (fun _ => false) [] 0 true "").2 = .crashedTypeError ∧
      (download_command_handler_run ["https://example.com/v"]
        (.downloadError "ERROR: fragment 3 not found")
        ⟨none, false, some "Downloading...\nProgress:  50.0%\nSize: 10.00MiB\nSpeed: 1.00MiB/s\nETA: 00:05"⟩
        (fun _ => false) [] 0 true "").1.lastProgressMsg
        = some "Downloading...\nProgress:  50.0%\nSize: 10.00MiB\nSpeed: 1.00MiB/s\nETA: 00:05" ∧
      (download_command_handler_run ["https://example.com/v"] .ok
        ⟨some "video_downloads/v.mp4", false, none⟩
        (fun _ => true) [] sizeLimitBytes true "").1 = emptyStore ∧
      (download_command_handler_run ["https://example.com/v"] .ok
        ⟨some "video_downloads/v.mp4", false, none⟩
        (fun _ => true) [] sizeLimitBytes true "").2 = .completed ∧
      (tele_delivery_and_cleanup none (fun _ => false) true ""
        ⟨none, true, some "stale"⟩).finalStore = emptyStore := by
  decide

end TheCollector
